import Mathlib

/-!
Shallow embedding of the prerendering lifecycle controller
(`chrome/browser/prerender/prerender_contents.cc`) and of the Mac password
encryption shim (`chrome/browser/password_manager/login_database_mac.cc`).

Modelling conventions:
* The mutable C++ object `PrerenderContents` becomes an immutable structure;
  member functions become functions returning the updated structure.
* Calls into external collaborators (the manager's bookkeeping, observer
  lists, render-process broadcasts) are recorded as an explicit event trace
  (`List Event`), in the order the C++ code performs them.
* Read-only oracles of the manager (config flags, recently-visited queries,
  control-group membership) are an `Env` parameter.
* A failed `DCHECK`/`CHECK`/`NOTREACHED` (a fatal assertion) is modelled as
  the function returning `none`; a `some` result means no assertion fired.
* The `PrerenderTracker` (cross-thread final-status map) is not part of this
  source excerpt; it is modelled from the spec as a set-if-absent map, see
  `lookupTracker` / `trackerTryCancel`.
-/

namespace prerender

/-- A URL, reduced to the structure the embedded code inspects: its scheme
and the remainder of its serialization. `GURL` equality is equality of the
full serialization. -/
structure GURL where
  scheme : String
  rest : String
deriving DecidableEq

/-- Embedding of `GURL::SchemeIs`: compares the (canonical) scheme against a given
scheme string. -/
def GURL.SchemeIs (u : GURL) (s : String) : Bool :=
  u.scheme = s

/-- Constant `content::kHttpScheme`. -/
def kHttpScheme : String := "http"

/-- Constant `content::kHttpsScheme`. -/
def kHttpsScheme : String := "https"

/-- Type `content::Referrer`, treated as opaque configuration data carried by the
record (only copied around, never inspected). -/
structure Referrer where
  url : GURL
deriving DecidableEq

/-- Enum `prerender::Origin` classification (opaque to this file except for being
passed to the manager's recently-visited oracle and copied into clones). -/
inductive Origin where
  | omnibox
  | instant
  | localPredictor
  | linkRelPrerender
deriving DecidableEq

/-- Enum `prerender::FinalStatus` (from `prerender_final_status.h`):
`FINAL_STATUS_USED` is the first enumerator and `FINAL_STATUS_MAX` the last,
so the range check `final_status >= FINAL_STATUS_USED && final_status <
FINAL_STATUS_MAX` amounts to the status not being the `max` sentinel. -/
inductive FinalStatus where
  | used
  | timedOut
  | evicted
  | unsupportedScheme
  | https
  | recentlyVisited
  | newNavigationEntry
  | rendererCrashed
  | openURL
  | download
  | javascriptAlert
  | profileDestroyed
  | appTerminating
  | windowPrint
  | memoryLimitExceeded
  | jsOutOfMemory
  | registerProtocolHandler
  | cancelled
  | max
deriving DecidableEq

/-- The `DCHECK` range test in `SetFinalStatus`:
`final_status >= FINAL_STATUS_USED && final_status < FINAL_STATUS_MAX`. -/
def validFinalStatus (fs : FinalStatus) : Prop :=
  fs ≠ FinalStatus.max

instance (fs : FinalStatus) : Decidable (validFinalStatus fs) := by
  unfold validFinalStatus; infer_instance

/-- Enum `PrerenderContents::MatchCompleteStatus`. -/
inductive MatchCompleteStatus where
  | default
  | replacementPending
  | replacement
deriving DecidableEq

/-- Type `history::HistoryAddPageArgs`, an opaque payload accumulated by
`DidNavigate` and replayed by `CommitHistory`; only its identity matters
here. -/
structure HistoryAddPageArgs where
  url : GURL
  pageId : Int
deriving DecidableEq

/-- Type `content::SessionStorageNamespace`, reduced to the id the embedded code
reads. -/
structure SessionStorageNamespace where
  id : Int
deriving DecidableEq

/-- Externally observable side effects of the embedded member functions, in
program order: the tracker cancellation request, the manager bookkeeping
calls in `Destroy`, observer stop events, the render-process alias
broadcast of `AddAliasURL`, the replacement-created observer event, and the
history replay calls of `CommitHistory`. -/
inductive Event where
  | tryCancel (child_id : Int) (route_id : Int) (requested : FinalStatus)
  | addToHistory
  | moveEntryToPendingDelete (fs : FinalStatus)
  | notifyStop
  | broadcastAddAlias (url : GURL)
  | notifyCreatedMatchCompleteReplacement
  | updateHistoryForNavigation (args : HistoryAddPageArgs)
deriving DecidableEq

/-- Read-only oracles this file consumes from `PrerenderManager`:
`config().https_allowed`, `HasRecentlyBeenNavigatedTo`, `IsControlGroup`. -/
structure Env where
  https_allowed : Bool
  hasRecentlyBeenNavigatedTo : Origin → GURL → Bool
  isControlGroup : Nat → Bool

/-- Modelled from the spec: the `PrerenderTracker`'s synchronized map keyed
by (processId, routeId) → finalStatus (`prerender_tracker.cc` is not part of
this excerpt). Represented as an association list. -/
abbrev Tracker : Type := List ((Int × Int) × FinalStatus)

/-- Modelled from the spec: `PrerenderTracker::GetFinalStatus` — look up the
recorded final status for a (processId, routeId) key. -/
def lookupTracker (tr : Tracker) (key : Int × Int) : Option FinalStatus :=
  (tr.find? (fun p => decide (p.1 = key))).map (fun p => p.2)

/-- Modelled from the spec: `PrerenderTracker::TryCancel` — atomically claim
the cancellation by writing a final status if one is not already set; the
status afterwards recorded (the caller's own write or a concurrently set
one) is what `lookupTracker` then reports, and the call reports cancellation
success iff that recorded status is not `used`. -/
def trackerTryCancel (tr : Tracker) (key : Int × Int) (fs : FinalStatus) : Tracker :=
  match lookupTracker tr key with
  | none => (key, fs) :: tr
  | some _ => tr

/-- The state of one `PrerenderContents` record: the fields of the C++
class that the embedded member functions read or write, initialized as in
the constructor's initializer list. -/
structure PrerenderContents where
  prerendering_has_started : Bool
  session_storage_namespace_id : Int
  prerender_url : GURL
  referrer : Referrer
  has_stopped_loading : Bool
  has_finished_loading : Bool
  final_status : FinalStatus
  match_complete_status : MatchCompleteStatus
  prerendering_has_been_cancelled : Bool
  child_id : Int
  route_id : Int
  origin : Origin
  experiment_id : Nat
  load_start_time : Int
  alias_urls : List GURL
  add_page_vector : List HistoryAddPageArgs
deriving DecidableEq

/-- The `PrerenderContents` constructor (initializer list at the top of
`PrerenderContents::PrerenderContents`); containers start empty. -/
def PrerenderContents.construct (url : GURL) (referrer : Referrer)
    (origin : Origin) (experiment_id : Nat) : PrerenderContents :=
  { prerendering_has_started := false
    session_storage_namespace_id := -1
    prerender_url := url
    referrer := referrer
    has_stopped_loading := false
    has_finished_loading := false
    final_status := FinalStatus.max
    match_complete_status := MatchCompleteStatus.default
    prerendering_has_been_cancelled := false
    child_id := -1
    route_id := -1
    origin := origin
    experiment_id := experiment_id
    load_start_time := 0
    alias_urls := []
    add_page_vector := [] }

/-- Embedding of `PrerenderContents::SetFinalStatus`: DCHECKs that the argument is in the
valid range and that the current status is still the `max` sentinel, then
writes the status. A failed DCHECK is `none`. -/
def PrerenderContents.SetFinalStatus (s : PrerenderContents)
    (fs : FinalStatus) : Option PrerenderContents :=
  if validFinalStatus fs ∧ s.final_status = FinalStatus.max then
    some { s with final_status := fs }
  else
    none

/-- The tail of `PrerenderContents::Destroy` after the final status to
record has been determined: `SetFinalStatus`, set the cancelled flag, the
manager bookkeeping calls, and the conditional stop event. -/
def PrerenderContents.finishDestroy (env : Env) (s : PrerenderContents)
    (tr : Tracker) (fs : FinalStatus) (evs : List Event) :
    Option (PrerenderContents × Tracker × List Event) :=
  match s.SetFinalStatus fs with
  | none => none
  | some s1 =>
    let s2 := { s1 with prerendering_has_been_cancelled := true }
    let evs2 := evs ++ [Event.addToHistory, Event.moveEntryToPendingDelete fs]
    if env.isControlGroup s.experiment_id = false ∧
        (s.prerendering_has_started = true ∨
         s.match_complete_status = MatchCompleteStatus.replacement) then
      some (s2, tr, evs2 ++ [Event.notifyStop])
    else
      some (s2, tr, evs2)

/-- Embedding of `PrerenderContents::Destroy`: DCHECKs the reason is not `used`; a
no-op on an already-cancelled record; otherwise, once a (child, route) pair
is assigned, routes the cancellation through the tracker (`TryCancel`,
`CHECK(is_cancelled)`, `GetFinalStatus`) and records whatever status the
tracker reports, else records the locally requested status; then finishes
with `finishDestroy`. -/
def PrerenderContents.Destroy (env : Env) (tr : Tracker)
    (s : PrerenderContents) (final_status : FinalStatus) :
    Option (PrerenderContents × Tracker × List Event) :=
  if final_status = FinalStatus.used then
    none
  else if s.prerendering_has_been_cancelled = true then
    some (s, tr, [])
  else if s.child_id ≠ -1 ∧ s.route_id ≠ -1 then
    let key := (s.child_id, s.route_id)
    let tr1 := trackerTryCancel tr key final_status
    match lookupTracker tr1 key with
    | none => none
    | some recorded =>
      if recorded = FinalStatus.used then
        none
      else
        s.finishDestroy env tr1 recorded
          [Event.tryCancel s.child_id s.route_id final_status]
  else
    s.finishDestroy env tr final_status []

/-- Embedding of `PrerenderContents::CheckURL`: the eligibility gate — unsupported
scheme, https-disallowed, and recently-visited checks, in that order, each
cancelling via `Destroy`; the recently-visited check is skipped for a
replacement-pending record, and the two scheme branches DCHECK the record
is not replacement-pending. Returns the bool the C++ function returns
alongside the resulting state, tracker and trace. -/
def PrerenderContents.CheckURL (env : Env) (tr : Tracker)
    (s : PrerenderContents) (url : GURL) :
    Option (Bool × PrerenderContents × Tracker × List Event) :=
  let http := url.SchemeIs kHttpScheme
  let https := url.SchemeIs kHttpsScheme
  if http = false ∧ https = false then
    if s.match_complete_status = MatchCompleteStatus.replacementPending then
      none
    else
      match s.Destroy env tr FinalStatus.unsupportedScheme with
      | none => none
      | some (s1, tr1, evs) => some (false, s1, tr1, evs)
  else if https = true ∧ env.https_allowed = false then
    if s.match_complete_status = MatchCompleteStatus.replacementPending then
      none
    else
      match s.Destroy env tr FinalStatus.https with
      | none => none
      | some (s1, tr1, evs) => some (false, s1, tr1, evs)
  else if s.match_complete_status ≠ MatchCompleteStatus.replacementPending ∧
      env.hasRecentlyBeenNavigatedTo s.origin url = true then
    match s.Destroy env tr FinalStatus.recentlyVisited with
    | none => none
    | some (s1, tr1, evs) => some (false, s1, tr1, evs)
  else
    some (true, s, tr, [])

/-- Embedding of `PrerenderContents::AddAliasURL`: `CheckURL`, then append the url to the
alias list and broadcast it to all render processes. -/
def PrerenderContents.AddAliasURL (env : Env) (tr : Tracker)
    (s : PrerenderContents) (url : GURL) :
    Option (Bool × PrerenderContents × Tracker × List Event) :=
  match s.CheckURL env tr url with
  | none => none
  | some (ok, s1, tr1, evs) =>
    if ok = true then
      some (true, { s1 with alias_urls := s1.alias_urls ++ [url] }, tr1,
            evs ++ [Event.broadcastAddAlias url])
    else
      some (false, s1, tr1, evs)

/-- Embedding of `PrerenderContents::Init`: `AddAliasURL(prerender_url_)`. -/
def PrerenderContents.Init (env : Env) (tr : Tracker)
    (s : PrerenderContents) :
    Option (Bool × PrerenderContents × Tracker × List Event) :=
  s.AddAliasURL env tr s.prerender_url

/-- Embedding of `PrerenderContents::Matches`: false when a namespace is given whose id
differs from the record's; otherwise whether the alias list holds the url
(`std::count_if` with `equal_to` is nonzero). -/
def PrerenderContents.Matches (s : PrerenderContents) (url : GURL)
    (ns : Option SessionStorageNamespace) : Bool :=
  match ns with
  | some n =>
    if s.session_storage_namespace_id ≠ n.id then
      false
    else
      decide (s.alias_urls.countP (fun u => decide (u = url)) ≠ 0)
  | none =>
    decide (s.alias_urls.countP (fun u => decide (u = url)) ≠ 0)

/-- Embedding of `PrerenderContents::DidNavigate`: `add_page_vector_.push_back`. -/
def PrerenderContents.DidNavigate (s : PrerenderContents)
    (add_page_args : HistoryAddPageArgs) : PrerenderContents :=
  { s with add_page_vector := s.add_page_vector ++ [add_page_args] }

/-- The loop body of `PrerenderContents::CommitHistory`: one
`UpdateHistoryForNavigation` call per accumulated entry, front to back. -/
def commitHistoryLoop : List HistoryAddPageArgs → List Event
  | [] => []
  | a :: rest => Event.updateHistoryForNavigation a :: commitHistoryLoop rest

/-- Embedding of `PrerenderContents::CommitHistory`: replay `add_page_vector_` into the
target tab's history helper, in index order. -/
def PrerenderContents.CommitHistory (s : PrerenderContents) : List Event :=
  commitHistoryLoop s.add_page_vector

/-- The redirect-walking loop of `PrerenderContents::DidNavigateMainFrame`:
call `AddAliasURL` on each redirect in order, returning (stopping) at the
first one that is rejected. -/
def addRedirectAliases (env : Env) :
    Tracker → PrerenderContents → List GURL →
    Option (PrerenderContents × Tracker × List Event)
  | tr, s, [] => some (s, tr, [])
  | tr, s, u :: rest =>
    match s.AddAliasURL env tr u with
    | none => none
    | some (ok, s1, tr1, evs) =>
      if ok = true then
        match addRedirectAliases env tr1 s1 rest with
        | none => none
        | some (s2, tr2, evs2) => some (s2, tr2, evs ++ evs2)
      else
        some (s1, tr1, evs)

/-- Embedding of `PrerenderContents::DidNavigateMainFrame`: if the hidden session's
navigation controller already holds more than one entry, cancel with
`newNavigationEntry`; otherwise walk `params.redirects` through
`AddAliasURL`. `entryCount` is the hidden session's
`GetController().GetEntryCount()`. -/
def PrerenderContents.DidNavigateMainFrame (env : Env) (tr : Tracker)
    (s : PrerenderContents) (entryCount : Nat) (redirects : List GURL) :
    Option (PrerenderContents × Tracker × List Event) :=
  if 1 < entryCount then
    s.Destroy env tr FinalStatus.newNavigationEntry
  else
    addRedirectAliases env tr s redirects

/-- The configuration cloning at the head of
`PrerenderContents::CreateMatchCompleteReplacement`: a fresh record built by
the factory from the original's url/referrer/origin/experiment, with the
load-start time and session-storage-namespace id copied over and the
match-complete status set to replacement-pending. -/
def PrerenderContents.cloneForMatchComplete (s : PrerenderContents) :
    PrerenderContents :=
  { PrerenderContents.construct s.prerender_url s.referrer s.origin
      s.experiment_id with
    load_start_time := s.load_start_time
    session_storage_namespace_id := s.session_storage_namespace_id
    match_complete_status := MatchCompleteStatus.replacementPending }

/-- Embedding of `PrerenderContents::CreateMatchCompleteReplacement`: clone the
configuration, run `Init` on the clone (DCHECKing it succeeds), DCHECK the
clone's first alias equals the original's first alias and that the clone
has exactly one alias, then overwrite the clone's alias list with the
original's and mark it the live replacement, firing the replacement-created
observer event. -/
def PrerenderContents.CreateMatchCompleteReplacement (env : Env)
    (tr : Tracker) (s : PrerenderContents) :
    Option (PrerenderContents × Tracker × List Event) :=
  let nc := s.cloneForMatchComplete
  match nc.Init env tr with
  | none => none
  | some (did_init, nc1, tr1, evs) =>
    if did_init = false then
      none
    else
      match s.alias_urls.head?, nc1.alias_urls.head? with
      | some a, some b =>
        if a = b ∧ nc1.alias_urls.length = 1 then
          some ({ nc1 with
                    alias_urls := s.alias_urls
                    match_complete_status := MatchCompleteStatus.replacement },
                tr1,
                evs ++ [Event.notifyCreatedMatchCompleteReplacement])
        else
          none
      | _, _ => none

end prerender

namespace LoginDatabase

/-- Enum `LoginDatabase::EncryptionResult` (from `login_database.h`). -/
inductive EncryptionResult where
  | success
  | itemFailure
  | serviceFailure
deriving DecidableEq

/-- Embedding of `LoginDatabase::EncryptedString` on the Mac: writes the empty string as
the cipher text and reports success, for every plaintext. -/
def EncryptedString (plain_text : String) : EncryptionResult × String :=
  (EncryptionResult.success, "")

/-- Embedding of `LoginDatabase::DecryptedString` on the Mac: writes the empty string as
the plaintext and reports success, for every cipher text. -/
def DecryptedString (cipher_text : String) : EncryptionResult × String :=
  (EncryptionResult.success, "")

end LoginDatabase

namespace prerender

/-- A freshly constructed record: not cancelled, final status still the
sentinel, default match-complete status, not started, no (child, route)
pair assigned. Every output of `PrerenderContents.construct` satisfies
this. -/
def FreshRecord (s : PrerenderContents) : Prop :=
  s.prerendering_has_been_cancelled = false ∧
  s.final_status = FinalStatus.max ∧
  s.match_complete_status = MatchCompleteStatus.default ∧
  s.prerendering_has_started = false ∧
  s.child_id = -1 ∧ s.route_id = -1

instance (s : PrerenderContents) : Decidable (FreshRecord s) := by
  unfold FreshRecord; infer_instance

/-- Spec-side characterization of the URLs `CheckURL` accepts on a record
whose match-complete status is not replacement-pending: an http scheme or
an allowed https scheme, and not recently visited for the record's
origin. -/
def acceptableURL (env : Env) (o : Origin) (u : GURL) : Bool :=
  (u.SchemeIs kHttpScheme || (u.SchemeIs kHttpsScheme && env.https_allowed)) &&
  !(env.hasRecentlyBeenNavigatedTo o u)

end prerender

open prerender

/-- Concrete http URL fixture. -/
def url0 : GURL := { scheme := "http", rest := "://a.com/" }

/-- Concrete redirected-URL fixture. -/
def url1 : GURL := { scheme := "http", rest := "://a.com/redirected" }

/-- A URL with an unsupported scheme, `ftp://x.com/a`. -/
def ftpUrl : GURL := { scheme := "ftp", rest := "://x.com/a" }

/-- Concrete https URL fixture. -/
def httpsUrl : GURL := { scheme := "https", rest := "://a.com/" }

/-- Concrete referrer fixture. -/
def ref0 : Referrer := { url := url0 }

/-- Environment fixture: https allowed, nothing recently visited, no
control group. -/
def env0 : Env :=
  { https_allowed := true
    hasRecentlyBeenNavigatedTo := fun _ _ => false
    isControlGroup := fun _ => false }

/-- Environment fixture in which every URL is reported recently visited. -/
def envRV : Env :=
  { https_allowed := true
    hasRecentlyBeenNavigatedTo := fun _ _ => true
    isControlGroup := fun _ => false }

/-- Environment fixture in which https prerendering is disallowed. -/
def envNoHttps : Env :=
  { https_allowed := false
    hasRecentlyBeenNavigatedTo := fun _ _ => false
    isControlGroup := fun _ => false }

/-- A freshly constructed record fixture. -/
def s0 : PrerenderContents :=
  PrerenderContents.construct url0 ref0 Origin.omnibox 0

/-- A record fixture whose match-complete replacement is pending. -/
def sPend : PrerenderContents :=
  { s0 with match_complete_status := MatchCompleteStatus.replacementPending }

/-- Concrete empty plaintext fixture. -/
def emptyText : String := ""

/-- Concrete non-empty plaintext fixture. -/
def sampleText : String := "x"

theorem lookupTracker_cons_self (k : Int × Int) (fs : FinalStatus)
    (tr : Tracker) : lookupTracker ((k, fs) :: tr) k = some fs := by
  simp [lookupTracker, List.find?]

theorem countP_url_ne_zero_iff_mem (l : List GURL) (url : GURL) :
    (¬ l.countP (fun u => decide (u = url)) = 0) ↔ url ∈ l := by
  rw [show (¬ l.countP (fun u => decide (u = url)) = 0) ↔
      0 < l.countP (fun u => decide (u = url)) from Nat.pos_iff_ne_zero.symm,
    List.countP_pos_iff]
  simp

theorem commitHistoryLoop_eq_map (l : List HistoryAddPageArgs) :
    commitHistoryLoop l = l.map Event.updateHistoryForNavigation := by
  induction l with
  | nil => rfl
  | cons a rest ih => simp [commitHistoryLoop, ih]

theorem foldl_didNavigate_add_page_vector (entries : List HistoryAddPageArgs) :
    ∀ s : PrerenderContents,
      (entries.foldl PrerenderContents.DidNavigate s).add_page_vector =
        s.add_page_vector ++ entries := by
  induction entries with
  | nil => intro s; simp
  | cons a rest ih =>
    intro s
    simp [List.foldl_cons, ih, PrerenderContents.DidNavigate]

/-- C1: for every record, `finalStatus` starts at the unset sentinel
`FINAL_STATUS_MAX`; `SetFinalStatus` writes it once, and a second call on
the same record violates the fatal assertion
`DCHECK(final_status_ == FINAL_STATUS_MAX)` (modelled as `none`). -/
theorem c1_final_status_written_once :
    (∀ (url : GURL) (referrer : Referrer) (origin : Origin)
        (experiment_id : Nat),
      (PrerenderContents.construct url referrer origin
          experiment_id).final_status = FinalStatus.max) ∧
    ∀ (s : PrerenderContents) (fs : FinalStatus),
      s.final_status = FinalStatus.max → validFinalStatus fs →
      s.SetFinalStatus fs = some { s with final_status := fs } ∧
      ∀ fs', ({ s with final_status := fs }).SetFinalStatus fs' = none := by
  refine ⟨fun _ _ _ _ => rfl, fun s fs hf hv => ⟨?_, fun fs' => ?_⟩⟩
  · rw [PrerenderContents.SetFinalStatus, if_pos ⟨hv, hf⟩]
  · rw [PrerenderContents.SetFinalStatus, if_neg]
    exact fun h => hv h.2

/-- Witness for C1 at a concrete fresh record: the first
`SetFinalStatus used` succeeds and the second call fails the assertion. -/
theorem c1_witness :
    s0.SetFinalStatus FinalStatus.used =
      some { s0 with final_status := FinalStatus.used } ∧
    ({ s0 with final_status := FinalStatus.used }).SetFinalStatus
        FinalStatus.cancelled = none :=
  ⟨(c1_final_status_written_once.2 s0 FinalStatus.used rfl (by decide)).1,
   (c1_final_status_written_once.2 s0 FinalStatus.used rfl
       (by decide)).2 FinalStatus.cancelled⟩

/-- C5: `Matches(url, ns)` is true iff `url` is an element of the alias
list and the namespace is either unspecified or has the record's assigned
session-storage-namespace id. -/
theorem c5_matches_iff (s : PrerenderContents) (url : GURL)
    (ns : Option SessionStorageNamespace) :
    s.Matches url ns = true ↔
      url ∈ s.alias_urls ∧
        (ns = none ∨ ∃ n, ns = some n ∧
          n.id = s.session_storage_namespace_id) := by
  cases ns with
  | none =>
    simp [PrerenderContents.Matches, countP_url_ne_zero_iff_mem]
  | some n =>
    by_cases hid : s.session_storage_namespace_id = n.id
    · simp [PrerenderContents.Matches, hid, countP_url_ne_zero_iff_mem]
    · simp [PrerenderContents.Matches, hid]
      exact fun _ h => hid h.symm

/-- C7: `CommitHistory` replays exactly the entries accumulated by
`DidNavigate`, one history-update call per entry, in insertion order. -/
theorem c7_commit_history_replays_in_order (s : PrerenderContents)
    (entries : List HistoryAddPageArgs) (h : s.add_page_vector = []) :
    (entries.foldl PrerenderContents.DidNavigate s).CommitHistory =
      entries.map Event.updateHistoryForNavigation := by
  rw [PrerenderContents.CommitHistory, commitHistoryLoop_eq_map,
    foldl_didNavigate_add_page_vector, h, List.nil_append]

/-- Witness for C7: two accumulated entries replay as exactly those two
history updates in order. -/
theorem c7_witness :
    ([⟨url0, 1⟩, ⟨url1, 2⟩].foldl PrerenderContents.DidNavigate
        s0).CommitHistory =
      [Event.updateHistoryForNavigation ⟨url0, 1⟩,
       Event.updateHistoryForNavigation ⟨url1, 2⟩] := by
  rw [c7_commit_history_replays_in_order s0 [⟨url0, 1⟩, ⟨url1, 2⟩] rfl]
  rfl

/-- C10 counterexample: at the concrete plaintext `""` the round trip
`DecryptedString(EncryptedString(p))` yields `""`, which *is* the original
plaintext — refuting the universally quantified "never recovering p". -/
theorem c10_counterexample :
    (LoginDatabase.DecryptedString
        ((LoginDatabase.EncryptedString emptyText).2)).2 = emptyText := rfl

/-- C10 (amended): both shims always report success and write the empty
string, the round trip yields the empty string for every plaintext, and
hence no *non-empty* plaintext is ever recovered. -/
theorem c10_encryption_shim_lossy :
    (∀ p, LoginDatabase.EncryptedString p =
      (LoginDatabase.EncryptionResult.success, "")) ∧
    (∀ c, LoginDatabase.DecryptedString c =
      (LoginDatabase.EncryptionResult.success, "")) ∧
    (∀ p, (LoginDatabase.DecryptedString
        ((LoginDatabase.EncryptedString p).2)).2 = "") ∧
    (∀ p, p ≠ "" → (LoginDatabase.DecryptedString
        ((LoginDatabase.EncryptedString p).2)).2 ≠ p) := by
  refine ⟨fun _ => rfl, fun _ => rfl, fun _ => rfl, fun p hp h => ?_⟩
  exact hp h.symm

/-- Witness for C10 at the non-empty plaintext `"x"`: the round trip does
not recover it. -/
theorem c10_witness :
    sampleText ≠ "" ∧
    (LoginDatabase.DecryptedString
        ((LoginDatabase.EncryptedString sampleText).2)).2 ≠ sampleText :=
  ⟨by decide, c10_encryption_shim_lossy.2.2.2 sampleText (by decide)⟩

theorem finishDestroy_eq (env : Env) (s : PrerenderContents) (tr : Tracker)
    (fs : FinalStatus) (evs : List Event)
    (hv : fs ≠ FinalStatus.max) (hf : s.final_status = FinalStatus.max) :
    s.finishDestroy env tr fs evs =
      some ({ s with final_status := fs,
                     prerendering_has_been_cancelled := true },
            tr,
            (evs ++ [Event.addToHistory,
                     Event.moveEntryToPendingDelete fs]) ++
              (if env.isControlGroup s.experiment_id = false ∧
                  (s.prerendering_has_started = true ∨
                   s.match_complete_status = MatchCompleteStatus.replacement)
               then [Event.notifyStop] else [])) := by
  have hset : s.SetFinalStatus fs = some { s with final_status := fs } := by
    rw [PrerenderContents.SetFinalStatus, if_pos ⟨hv, hf⟩]
  unfold PrerenderContents.finishDestroy
  rw [hset]
  dsimp only
  by_cases hn : env.isControlGroup s.experiment_id = false ∧
      (s.prerendering_has_started = true ∨
       s.match_complete_status = MatchCompleteStatus.replacement)
  · rw [if_pos hn, if_pos hn]
  · rw [if_neg hn, if_neg hn]
    simp

theorem Destroy_unassigned_eq (env : Env) (tr : Tracker)
    (s : PrerenderContents) (st : FinalStatus)
    (hst : st ≠ FinalStatus.used) (hmax : st ≠ FinalStatus.max)
    (hc : s.prerendering_has_been_cancelled = false)
    (hf : s.final_status = FinalStatus.max)
    (hid : s.child_id = -1 ∨ s.route_id = -1) :
    s.Destroy env tr st =
      some ({ s with final_status := st,
                     prerendering_has_been_cancelled := true },
            tr,
            [Event.addToHistory, Event.moveEntryToPendingDelete st] ++
              (if env.isControlGroup s.experiment_id = false ∧
                  (s.prerendering_has_started = true ∨
                   s.match_complete_status = MatchCompleteStatus.replacement)
               then [Event.notifyStop] else [])) := by
  unfold PrerenderContents.Destroy
  rw [if_neg hst, if_neg (by simp [hc]), if_neg (by
    rcases hid with h | h
    · exact fun hab => hab.1 h
    · exact fun hab => hab.2 h)]
  rw [finishDestroy_eq env s tr st [] hmax hf]
  simp

theorem Destroy_assigned_none_eq (env : Env) (tr : Tracker)
    (s : PrerenderContents) (st : FinalStatus)
    (hst : st ≠ FinalStatus.used) (hmax : st ≠ FinalStatus.max)
    (hc : s.prerendering_has_been_cancelled = false)
    (hf : s.final_status = FinalStatus.max)
    (hcid : s.child_id ≠ -1) (hrid : s.route_id ≠ -1)
    (hl : lookupTracker tr (s.child_id, s.route_id) = none) :
    s.Destroy env tr st =
      some ({ s with final_status := st,
                     prerendering_has_been_cancelled := true },
            ((s.child_id, s.route_id), st) :: tr,
            ([Event.tryCancel s.child_id s.route_id st] ++
               [Event.addToHistory, Event.moveEntryToPendingDelete st]) ++
              (if env.isControlGroup s.experiment_id = false ∧
                  (s.prerendering_has_started = true ∨
                   s.match_complete_status = MatchCompleteStatus.replacement)
               then [Event.notifyStop] else [])) := by
  unfold PrerenderContents.Destroy
  rw [if_neg hst, if_neg (by simp [hc]), if_pos ⟨hcid, hrid⟩]
  simp only [trackerTryCancel, hl, lookupTracker_cons_self]
  rw [if_neg hst]
  rw [finishDestroy_eq env s (((s.child_id, s.route_id), st) :: tr) st
    [Event.tryCancel s.child_id s.route_id st] hmax hf]

theorem Destroy_assigned_some_eq (env : Env) (tr : Tracker)
    (s : PrerenderContents) (st t0 : FinalStatus)
    (hst : st ≠ FinalStatus.used)
    (hc : s.prerendering_has_been_cancelled = false)
    (hf : s.final_status = FinalStatus.max)
    (hcid : s.child_id ≠ -1) (hrid : s.route_id ≠ -1)
    (hl : lookupTracker tr (s.child_id, s.route_id) = some t0)
    (ht0 : t0 ≠ FinalStatus.used) (ht0max : t0 ≠ FinalStatus.max) :
    s.Destroy env tr st =
      some ({ s with final_status := t0,
                     prerendering_has_been_cancelled := true },
            tr,
            ([Event.tryCancel s.child_id s.route_id st] ++
               [Event.addToHistory, Event.moveEntryToPendingDelete t0]) ++
              (if env.isControlGroup s.experiment_id = false ∧
                  (s.prerendering_has_started = true ∨
                   s.match_complete_status = MatchCompleteStatus.replacement)
               then [Event.notifyStop] else [])) := by
  unfold PrerenderContents.Destroy
  rw [if_neg hst, if_neg (by simp [hc]), if_pos ⟨hcid, hrid⟩]
  simp only [trackerTryCancel, hl]
  rw [if_neg ht0]
  rw [finishDestroy_eq env s tr t0
    [Event.tryCancel s.child_id s.route_id st] ht0max hf]

theorem finishDestroy_some_cancelled (env : Env) (s : PrerenderContents)
    (tr : Tracker) (fs : FinalStatus) (evs : List Event)
    (s1 : PrerenderContents) (tr1 : Tracker) (evs1 : List Event)
    (h : s.finishDestroy env tr fs evs = some (s1, tr1, evs1)) :
    s1.prerendering_has_been_cancelled = true := by
  unfold PrerenderContents.finishDestroy at h
  cases hset : s.SetFinalStatus fs with
  | none => rw [hset] at h; exact absurd h (by simp)
  | some s2 =>
    rw [hset] at h
    dsimp only at h
    split at h <;>
      (simp only [Option.some.injEq, Prod.mk.injEq] at h
       obtain ⟨h1, -, -⟩ := h
       rw [← h1])

theorem Destroy_some_cancelled (env : Env) (tr : Tracker)
    (s : PrerenderContents) (st : FinalStatus)
    (s1 : PrerenderContents) (tr1 : Tracker) (evs1 : List Event)
    (h : s.Destroy env tr st = some (s1, tr1, evs1)) :
    s1.prerendering_has_been_cancelled = true := by
  unfold PrerenderContents.Destroy at h
  split at h
  · exact absurd h (by simp)
  · split at h
    · rename_i hcan
      simp only [Option.some.injEq, Prod.mk.injEq] at h
      obtain ⟨h1, -, -⟩ := h
      rw [← h1]
      exact hcan
    · split at h
      · dsimp only at h
        split at h
        · exact absurd h (by simp)
        · split at h
          · exact absurd h (by simp)
          · exact finishDestroy_some_cancelled _ _ _ _ _ _ _ _ h
      · exact finishDestroy_some_cancelled _ _ _ _ _ _ _ _ h

/-- C2: `Destroy` is idempotent — any successful call leaves the record
with the monotonic cancelled flag set, and on a cancelled record any later
`Destroy` call (with any non-`used` reason, any environment and tracker)
returns the record unchanged with an empty effect trace: no status
overwrite, no history or pending-delete bookkeeping, no stop event. -/
theorem c2_destroy_idempotent (env : Env) (tr : Tracker)
    (s : PrerenderContents) (st : FinalStatus) (s1 : PrerenderContents)
    (tr1 : Tracker) (evs1 : List Event)
    (h : s.Destroy env tr st = some (s1, tr1, evs1)) :
    s1.prerendering_has_been_cancelled = true ∧
    ∀ (env2 : Env) (tr2 : Tracker) (st2 : FinalStatus),
      st2 ≠ FinalStatus.used →
      s1.Destroy env2 tr2 st2 = some (s1, tr2, []) := by
  have hcan := Destroy_some_cancelled env tr s st s1 tr1 evs1 h
  refine ⟨hcan, fun env2 tr2 st2 hst2 => ?_⟩
  unfold PrerenderContents.Destroy
  rw [if_neg hst2, if_pos hcan]

/-- Witness for C2: a concrete first `Destroy` on a fresh record succeeds,
and the second call with a different reason is a no-op with an empty
trace. -/
theorem c2_witness :
    ({ s0 with final_status := FinalStatus.download,
               prerendering_has_been_cancelled := true } :
        PrerenderContents).Destroy envRV [] FinalStatus.cancelled =
      some ({ s0 with final_status := FinalStatus.download,
                      prerendering_has_been_cancelled := true }, [], []) :=
  (c2_destroy_idempotent env0 [] s0 FinalStatus.download
      { s0 with final_status := FinalStatus.download,
                prerendering_has_been_cancelled := true }
      []
      [Event.addToHistory, Event.moveEntryToPendingDelete FinalStatus.download]
      (by decide)).2 envRV [] FinalStatus.cancelled (by decide)

theorem SchemeIs_http_not_https (u : GURL)
    (h : u.SchemeIs kHttpScheme = true) :
    u.SchemeIs kHttpsScheme = false := by
  unfold GURL.SchemeIs kHttpScheme kHttpsScheme at *
  simp only [decide_eq_true_eq] at h
  rw [h]
  decide

theorem SchemeIs_https_not_http (u : GURL)
    (h : u.SchemeIs kHttpsScheme = true) :
    u.SchemeIs kHttpScheme = false := by
  unfold GURL.SchemeIs kHttpScheme kHttpsScheme at *
  simp only [decide_eq_true_eq] at h
  rw [h]
  decide

theorem Destroy_lookup_none (env : Env) (tr : Tracker)
    (s : PrerenderContents) (st : FinalStatus)
    (hst : st ≠ FinalStatus.used) (hmax : st ≠ FinalStatus.max)
    (hc : s.prerendering_has_been_cancelled = false)
    (hf : s.final_status = FinalStatus.max)
    (hl : lookupTracker tr (s.child_id, s.route_id) = none) :
    ∃ tr1 evs1, s.Destroy env tr st =
      some ({ s with final_status := st,
                     prerendering_has_been_cancelled := true },
            tr1, evs1) := by
  by_cases hid : s.child_id ≠ -1 ∧ s.route_id ≠ -1
  · exact ⟨_, _, Destroy_assigned_none_eq env tr s st hst hmax hc hf
      hid.1 hid.2 hl⟩
  · have hor : s.child_id = -1 ∨ s.route_id = -1 := by
      rcases not_and_or.mp hid with h | h
      · exact Or.inl (not_not.mp h)
      · exact Or.inr (not_not.mp h)
    exact ⟨_, _, Destroy_unassigned_eq env tr s st hst hmax hc hf hor⟩

/-- C3: once a (child, route) pair is assigned, `Destroy` first requests
cancellation through the tracker and records the status the tracker then
reports — the pre-existing tracker status when there is one (which may
differ from the locally requested reason), the locally requested one
otherwise, which `GetFinalStatus` then also reports; before the pair is
assigned, `Destroy` records the local reason without any tracker
interaction. -/
theorem c3_tracker_status_authoritative :
    (∀ (env : Env) (tr : Tracker) (s : PrerenderContents)
        (st t0 : FinalStatus),
      s.child_id ≠ -1 → s.route_id ≠ -1 →
      s.prerendering_has_been_cancelled = false →
      s.final_status = FinalStatus.max →
      st ≠ FinalStatus.used →
      lookupTracker tr (s.child_id, s.route_id) = some t0 →
      t0 ≠ FinalStatus.used → t0 ≠ FinalStatus.max →
      ∃ evs1, s.Destroy env tr st =
          some ({ s with final_status := t0,
                         prerendering_has_been_cancelled := true },
                tr, evs1) ∧
        evs1.head? = some (Event.tryCancel s.child_id s.route_id st)) ∧
    (∀ (env : Env) (tr : Tracker) (s : PrerenderContents) (st : FinalStatus),
      s.child_id ≠ -1 → s.route_id ≠ -1 →
      s.prerendering_has_been_cancelled = false →
      s.final_status = FinalStatus.max →
      st ≠ FinalStatus.used → st ≠ FinalStatus.max →
      lookupTracker tr (s.child_id, s.route_id) = none →
      ∃ tr1 evs1, s.Destroy env tr st =
          some ({ s with final_status := st,
                         prerendering_has_been_cancelled := true },
                tr1, evs1) ∧
        lookupTracker tr1 (s.child_id, s.route_id) = some st ∧
        evs1.head? = some (Event.tryCancel s.child_id s.route_id st)) ∧
    (∀ (env : Env) (tr : Tracker) (s : PrerenderContents) (st : FinalStatus),
      (s.child_id = -1 ∨ s.route_id = -1) →
      s.prerendering_has_been_cancelled = false →
      s.final_status = FinalStatus.max →
      st ≠ FinalStatus.used → st ≠ FinalStatus.max →
      ∃ evs1, s.Destroy env tr st =
          some ({ s with final_status := st,
                         prerendering_has_been_cancelled := true },
                tr, evs1) ∧
        ∀ c r q, Event.tryCancel c r q ∉ evs1) := by
  refine ⟨?_, ?_, ?_⟩
  · intro env tr s st t0 hcid hrid hc hf hst hl ht0 ht0max
    exact ⟨_, Destroy_assigned_some_eq env tr s st t0 hst hc hf hcid hrid
      hl ht0 ht0max, rfl⟩
  · intro env tr s st hcid hrid hc hf hst hmax hl
    refine ⟨_, _, Destroy_assigned_none_eq env tr s st hst hmax hc hf
      hcid hrid hl, lookupTracker_cons_self _ _ _, rfl⟩
  · intro env tr s st hid hc hf hst hmax
    refine ⟨_, Destroy_unassigned_eq env tr s st hst hmax hc hf hid, ?_⟩
    intro c r q hmem
    rw [List.mem_append] at hmem
    rcases hmem with hmem | hmem
    · simp at hmem
    · revert hmem
      split <;> simp

/-- Witness for C3: with a concrete assigned record and a tracker that
already holds `timedOut`, `Destroy` requested with `rendererCrashed`
records `timedOut` and its first event is the tracker cancellation
request. -/
theorem c3_witness :
    ((({ s0 with child_id := 4, route_id := 7 } :
          PrerenderContents).Destroy env0 [((4, 7), FinalStatus.timedOut)]
          FinalStatus.rendererCrashed).map
        (fun r => (r.1.final_status, r.2.2.head?))) =
      some (FinalStatus.timedOut,
            some (Event.tryCancel 4 7 FinalStatus.rendererCrashed)) := by
  obtain ⟨evs1, heq, hhead⟩ :=
    c3_tracker_status_authoritative.1 env0 [((4, 7), FinalStatus.timedOut)]
      { s0 with child_id := 4, route_id := 7 }
      FinalStatus.rendererCrashed FinalStatus.timedOut
      (by decide) (by decide) rfl rfl (by decide) (by decide) (by decide)
      (by decide)
  rw [heq]
  simp [hhead]

theorem CheckURL_accepts (env : Env) (tr : Tracker) (s : PrerenderContents)
    (u : GURL)
    (hm : s.match_complete_status ≠ MatchCompleteStatus.replacementPending)
    (hacc : acceptableURL env s.origin u = true) :
    s.CheckURL env tr u = some (true, s, tr, []) := by
  unfold acceptableURL at hacc
  rw [Bool.and_eq_true, Bool.or_eq_true, Bool.and_eq_true,
    Bool.not_eq_true'] at hacc
  obtain ⟨hscheme, hrv⟩ := hacc
  unfold PrerenderContents.CheckURL
  dsimp only
  rcases hscheme with hhttp | ⟨hhttps, hallow⟩
  · rw [if_neg (by simp [hhttp]),
      if_neg (by simp [SchemeIs_http_not_https u hhttp]),
      if_neg (by simp [hrv])]
  · rw [if_neg (by simp [hhttps]), if_neg (by simp [hallow]),
      if_neg (by simp [hrv])]

theorem CheckURL_rejects (env : Env) (tr : Tracker) (s : PrerenderContents)
    (u : GURL)
    (hm : s.match_complete_status ≠ MatchCompleteStatus.replacementPending)
    (hc : s.prerendering_has_been_cancelled = false)
    (hf : s.final_status = FinalStatus.max)
    (hl : lookupTracker tr (s.child_id, s.route_id) = none)
    (hacc : acceptableURL env s.origin u = false) :
    ∃ s1 tr1 evs1, s.CheckURL env tr u = some (false, s1, tr1, evs1) ∧
      s1.alias_urls = s.alias_urls ∧
      s1.prerendering_has_been_cancelled = true := by
  unfold PrerenderContents.CheckURL
  dsimp only
  cases hhttp : u.SchemeIs kHttpScheme with
  | true =>
    have hhttps := SchemeIs_http_not_https u hhttp
    have hrv : env.hasRecentlyBeenNavigatedTo s.origin u = true := by
      unfold acceptableURL at hacc
      simp [hhttp] at hacc
      exact hacc
    obtain ⟨tr1, evs1, hd⟩ := Destroy_lookup_none env tr s
      FinalStatus.recentlyVisited (by decide) (by decide) hc hf hl
    rw [if_neg (by simp [hhttp]), if_neg (by simp [hhttps]),
      if_pos ⟨hm, hrv⟩, hd]
    exact ⟨_, _, _, rfl, rfl, rfl⟩
  | false =>
    cases hhttps : u.SchemeIs kHttpsScheme with
    | false =>
      obtain ⟨tr1, evs1, hd⟩ := Destroy_lookup_none env tr s
        FinalStatus.unsupportedScheme (by decide) (by decide) hc hf hl
      rw [if_pos ⟨rfl, rfl⟩, if_neg hm, hd]
      exact ⟨_, _, _, rfl, rfl, rfl⟩
    | true =>
      cases hallow : env.https_allowed with
      | false =>
        obtain ⟨tr1, evs1, hd⟩ := Destroy_lookup_none env tr s
          FinalStatus.https (by decide) (by decide) hc hf hl
        rw [if_neg (by simp [hhttps]), if_pos ⟨rfl, rfl⟩,
          if_neg hm, hd]
        exact ⟨_, _, _, rfl, rfl, rfl⟩
      | true =>
        have hrv : env.hasRecentlyBeenNavigatedTo s.origin u = true := by
          unfold acceptableURL at hacc
          simp [hhttp, hhttps, hallow] at hacc
          exact hacc
        obtain ⟨tr1, evs1, hd⟩ := Destroy_lookup_none env tr s
          FinalStatus.recentlyVisited (by decide) (by decide) hc hf hl
        rw [if_neg (by simp [hhttps]), if_neg (by simp [hallow]),
          if_pos ⟨hm, hrv⟩, hd]
        exact ⟨_, _, _, rfl, rfl, rfl⟩

theorem AddAliasURL_accepts (env : Env) (tr : Tracker)
    (s : PrerenderContents) (u : GURL)
    (hm : s.match_complete_status ≠ MatchCompleteStatus.replacementPending)
    (hacc : acceptableURL env s.origin u = true) :
    s.AddAliasURL env tr u =
      some (true, { s with alias_urls := s.alias_urls ++ [u] }, tr,
            [Event.broadcastAddAlias u]) := by
  unfold PrerenderContents.AddAliasURL
  rw [CheckURL_accepts env tr s u hm hacc]
  simp

theorem AddAliasURL_rejects (env : Env) (tr : Tracker)
    (s : PrerenderContents) (u : GURL)
    (hm : s.match_complete_status ≠ MatchCompleteStatus.replacementPending)
    (hc : s.prerendering_has_been_cancelled = false)
    (hf : s.final_status = FinalStatus.max)
    (hl : lookupTracker tr (s.child_id, s.route_id) = none)
    (hacc : acceptableURL env s.origin u = false) :
    ∃ s1 tr1 evs1, s.AddAliasURL env tr u = some (false, s1, tr1, evs1) ∧
      s1.alias_urls = s.alias_urls ∧
      s1.prerendering_has_been_cancelled = true := by
  obtain ⟨s1, tr1, evs1, hcu, halias, hcan⟩ :=
    CheckURL_rejects env tr s u hm hc hf hl hacc
  unfold PrerenderContents.AddAliasURL
  rw [hcu]
  exact ⟨s1, tr1, evs1, by simp, halias, hcan⟩

/-- C4: on a fresh (just-constructed, not yet cancelled) record,
`AddAliasURL` with a URL whose scheme is neither http nor https returns
false, leaves the record cancelled with `unsupportedScheme`, performs only
the history/pending-delete bookkeeping, and leaves the alias list
unchanged. -/
theorem c4_add_alias_unsupported_scheme (env : Env) (tr : Tracker)
    (s : PrerenderContents) (url : GURL) (hfresh : FreshRecord s)
    (h1 : url.SchemeIs kHttpScheme = false)
    (h2 : url.SchemeIs kHttpsScheme = false) :
    s.AddAliasURL env tr url =
      some (false,
            { s with final_status := FinalStatus.unsupportedScheme,
                     prerendering_has_been_cancelled := true },
            tr,
            [Event.addToHistory,
             Event.moveEntryToPendingDelete FinalStatus.unsupportedScheme]) ∧
    ({ s with final_status := FinalStatus.unsupportedScheme,
              prerendering_has_been_cancelled := true }).alias_urls =
      s.alias_urls := by
  obtain ⟨hc, hf, hmcs, hstart, hchild, hroute⟩ := hfresh
  have hnotify : ¬(env.isControlGroup s.experiment_id = false ∧
      (s.prerendering_has_started = true ∨
       s.match_complete_status = MatchCompleteStatus.replacement)) := by
    rintro ⟨-, h | h⟩
    · rw [hstart] at h
      exact Bool.false_ne_true h
    · rw [hmcs] at h
      cases h
  have hd := Destroy_unassigned_eq env tr s FinalStatus.unsupportedScheme
    (by decide) (by decide) hc hf (Or.inl hchild)
  rw [if_neg hnotify, List.append_nil] at hd
  have hcu : s.CheckURL env tr url =
      some (false,
            { s with final_status := FinalStatus.unsupportedScheme,
                     prerendering_has_been_cancelled := true },
            tr,
            [Event.addToHistory,
             Event.moveEntryToPendingDelete
               FinalStatus.unsupportedScheme]) := by
    unfold PrerenderContents.CheckURL
    dsimp only
    rw [if_pos ⟨h1, h2⟩,
      if_neg (show ¬s.match_complete_status =
          MatchCompleteStatus.replacementPending by
        rw [hmcs]; rintro h; cases h),
      hd]
  refine ⟨?_, rfl⟩
  unfold PrerenderContents.AddAliasURL
  rw [hcu]
  simp

/-- Witness for C4: the fresh record `s0` and the URL `ftp://x.com/a`. -/
theorem c4_witness :
    s0.AddAliasURL env0 [] ftpUrl =
      some (false,
            { s0 with final_status := FinalStatus.unsupportedScheme,
                      prerendering_has_been_cancelled := true },
            [],
            [Event.addToHistory,
             Event.moveEntryToPendingDelete FinalStatus.unsupportedScheme]) :=
  (c4_add_alias_unsupported_scheme env0 [] s0 ftpUrl (by decide) (by decide)
    (by decide)).1

theorem addRedirectAliases_spec (env : Env) (l : List GURL) :
    ∀ (tr : Tracker) (s : PrerenderContents),
      s.prerendering_has_been_cancelled = false →
      s.final_status = FinalStatus.max →
      s.match_complete_status ≠ MatchCompleteStatus.replacementPending →
      lookupTracker tr (s.child_id, s.route_id) = none →
      ∃ s1 tr1 evs1, addRedirectAliases env tr s l = some (s1, tr1, evs1) ∧
        s1.alias_urls = s.alias_urls ++
          l.takeWhile (fun u => acceptableURL env s.origin u) := by
  induction l with
  | nil =>
    intro tr s hc hf hm hl
    exact ⟨s, tr, [], rfl, by simp [addRedirectAliases]⟩
  | cons u rest ih =>
    intro tr s hc hf hm hl
    by_cases hacc : acceptableURL env s.origin u = true
    · have hstep := AddAliasURL_accepts env tr s u hm hacc
      obtain ⟨s1, tr1, evs1, hrec, halias⟩ :=
        ih tr { s with alias_urls := s.alias_urls ++ [u] } hc hf hm hl
      refine ⟨s1, tr1, [Event.broadcastAddAlias u] ++ evs1, ?_, ?_⟩
      · simp only [addRedirectAliases]
        rw [hstep]
        dsimp only
        rw [if_pos rfl, hrec]
      · rw [halias, List.takeWhile_cons, hacc]
        simp
    · have hacc' : acceptableURL env s.origin u = false := by
        simpa using hacc
      obtain ⟨s1, tr1, evs1, hstep, halias, hcan⟩ :=
        AddAliasURL_rejects env tr s u hm hc hf hl hacc'
      refine ⟨s1, tr1, evs1, ?_, ?_⟩
      · simp only [addRedirectAliases]
        rw [hstep]
        simp
      · rw [halias, List.takeWhile_cons, hacc']
        simp

/-- C6: on a main-frame commit, if the hidden session's navigation history
already holds more than one entry the record is cancelled with
`newNavigationEntry` — regardless of the alias list — and no redirect is
added as an alias; otherwise the redirect chain is fed to `AddAliasURL` in
order, stopping at the first rejection, so exactly the longest acceptable
prefix of the redirects is appended to the alias list. -/
theorem c6_main_frame_commit :
    (∀ (env : Env) (tr : Tracker) (s : PrerenderContents)
        (entryCount : Nat) (redirects : List GURL),
      1 < entryCount →
      s.prerendering_has_been_cancelled = false →
      s.final_status = FinalStatus.max →
      lookupTracker tr (s.child_id, s.route_id) = none →
      ∃ tr1 evs1, s.DidNavigateMainFrame env tr entryCount redirects =
          some ({ s with final_status := FinalStatus.newNavigationEntry,
                         prerendering_has_been_cancelled := true },
                tr1, evs1) ∧
        ∀ u, Event.broadcastAddAlias u ∉ evs1) ∧
    (∀ (env : Env) (tr : Tracker) (s : PrerenderContents)
        (entryCount : Nat) (redirects : List GURL),
      ¬ 1 < entryCount →
      s.prerendering_has_been_cancelled = false →
      s.final_status = FinalStatus.max →
      s.match_complete_status ≠ MatchCompleteStatus.replacementPending →
      lookupTracker tr (s.child_id, s.route_id) = none →
      ∃ s1 tr1 evs1, s.DidNavigateMainFrame env tr entryCount redirects =
          some (s1, tr1, evs1) ∧
        s1.alias_urls = s.alias_urls ++
          redirects.takeWhile (fun u => acceptableURL env s.origin u)) := by
  constructor
  · intro env tr s entryCount redirects hcount hc hf hl
    unfold PrerenderContents.DidNavigateMainFrame
    rw [if_pos hcount]
    by_cases hid : s.child_id ≠ -1 ∧ s.route_id ≠ -1
    · refine ⟨_, _, Destroy_assigned_none_eq env tr s
        FinalStatus.newNavigationEntry (by decide) (by decide) hc hf
        hid.1 hid.2 hl, ?_⟩
      intro u hmem
      rw [List.mem_append] at hmem
      rcases hmem with hmem | hmem
      · simp at hmem
      · revert hmem
        split <;> simp
    · have hor : s.child_id = -1 ∨ s.route_id = -1 := by
        rcases not_and_or.mp hid with h | h
        · exact Or.inl (not_not.mp h)
        · exact Or.inr (not_not.mp h)
      refine ⟨_, _, Destroy_unassigned_eq env tr s
        FinalStatus.newNavigationEntry (by decide) (by decide) hc hf hor,
        ?_⟩
      intro u hmem
      rw [List.mem_append] at hmem
      rcases hmem with hmem | hmem
      · simp at hmem
      · revert hmem
        split <;> simp
  · intro env tr s entryCount redirects hcount hc hf hm hl
    unfold PrerenderContents.DidNavigateMainFrame
    rw [if_neg hcount]
    exact addRedirectAliases_spec env redirects tr s hc hf hm hl

/-- Witness for C6: with two history entries the concrete fresh record is
cancelled with `newNavigationEntry` and gains no alias; with one entry and
redirect chain `[http://a.com/, ftp://x.com/a, http://a.com/redirected]`
exactly the prefix before the unsupported-scheme URL is appended. -/
theorem c6_witness :
    ((s0.DidNavigateMainFrame env0 [] 2 [url1]).map
        (fun r => (r.1.final_status, r.1.prerendering_has_been_cancelled,
                   r.1.alias_urls))) =
      some (FinalStatus.newNavigationEntry, true, []) ∧
    ((s0.DidNavigateMainFrame env0 [] 1 [url0, ftpUrl, url1]).map
        (fun r => r.1.alias_urls)) = some [url0] := by
  constructor
  · obtain ⟨tr1, evs1, heq, -⟩ := c6_main_frame_commit.1 env0 [] s0 2
      [url1] (by decide) rfl rfl (by decide)
    rw [heq]
    rfl
  · obtain ⟨s1, tr1, evs1, heq, halias⟩ := c6_main_frame_commit.2 env0 []
      s0 1 [url0, ftpUrl, url1] (by decide) rfl rfl (by decide) (by decide)
    rw [heq, Option.map_some']
    rw [halias]
    rfl

theorem CheckURL_pending_accepts (env : Env) (tr : Tracker)
    (s : PrerenderContents) (u : GURL)
    (hm : s.match_complete_status = MatchCompleteStatus.replacementPending)
    (hscheme : u.SchemeIs kHttpScheme = true ∨
      (u.SchemeIs kHttpsScheme = true ∧ env.https_allowed = true)) :
    s.CheckURL env tr u = some (true, s, tr, []) := by
  unfold PrerenderContents.CheckURL
  dsimp only
  rcases hscheme with hhttp | ⟨hhttps, hallow⟩
  · rw [if_neg (by simp [hhttp]),
      if_neg (by simp [SchemeIs_http_not_https u hhttp]),
      if_neg (by rintro ⟨hne, -⟩; exact hne hm)]
  · rw [if_neg (by simp [hhttps]), if_neg (by simp [hallow]),
      if_neg (by rintro ⟨hne, -⟩; exact hne hm)]

/-- C8: `CreateMatchCompleteReplacement` builds a clone carrying the
original's url, referrer, origin, experiment tag, load-start time and
storage-namespace id; the clone's `Init` succeeds with the clone holding
exactly one alias — the original's first alias — at the assertion point,
and the completed replacement carries the original's whole alias list at
clone time and the live `replacement` match-complete status. -/
theorem c8_create_match_complete_replacement (env : Env) (tr : Tracker)
    (s : PrerenderContents)
    (hhead : s.alias_urls.head? = some s.prerender_url)
    (hscheme : s.prerender_url.SchemeIs kHttpScheme = true ∨
      (s.prerender_url.SchemeIs kHttpsScheme = true ∧
       env.https_allowed = true)) :
    s.cloneForMatchComplete.Init env tr =
      some (true,
            { s.cloneForMatchComplete with
                alias_urls := [s.prerender_url] },
            tr, [Event.broadcastAddAlias s.prerender_url]) ∧
    ([s.prerender_url].head? = s.alias_urls.head?) ∧
    s.CreateMatchCompleteReplacement env tr =
      some ({ s.cloneForMatchComplete with
                alias_urls := s.alias_urls
                match_complete_status := MatchCompleteStatus.replacement },
            tr,
            [Event.broadcastAddAlias s.prerender_url,
             Event.notifyCreatedMatchCompleteReplacement]) := by
  have hinit : s.cloneForMatchComplete.Init env tr =
      some (true,
            { s.cloneForMatchComplete with
                alias_urls := [s.prerender_url] },
            tr, [Event.broadcastAddAlias s.prerender_url]) := by
    unfold PrerenderContents.Init PrerenderContents.AddAliasURL
    rw [show s.cloneForMatchComplete.prerender_url = s.prerender_url from
      rfl]
    rw [CheckURL_pending_accepts env tr s.cloneForMatchComplete
      s.prerender_url rfl hscheme]
    simp [PrerenderContents.cloneForMatchComplete,
      PrerenderContents.construct]
  refine ⟨hinit, by simp [hhead], ?_⟩
  unfold PrerenderContents.CreateMatchCompleteReplacement
  dsimp only
  rw [hinit]
  dsimp only
  rw [if_neg (by simp), hhead]
  dsimp only [List.head?]
  rw [if_pos ⟨rfl, rfl⟩]
  rfl

/-- Witness for C8 at a concrete record with two aliases: the clone-side
`Init` result and the completed replacement. -/
theorem c8_witness :
    (({ s0 with alias_urls := [url0, url1] } :
        PrerenderContents).CreateMatchCompleteReplacement env0 []) =
      some ({ ({ s0 with alias_urls := [url0, url1] } :
                PrerenderContents).cloneForMatchComplete with
                alias_urls := [url0, url1]
                match_complete_status := MatchCompleteStatus.replacement },
            [],
            [Event.broadcastAddAlias url0,
             Event.notifyCreatedMatchCompleteReplacement]) :=
  (c8_create_match_complete_replacement env0 []
    { s0 with alias_urls := [url0, url1] } rfl (Or.inl rfl)).2.2

/-- C9 counterexample: on the concrete replacement-pending record `sPend`
and the non-http(s) URL `ftp://x.com/a`, `CheckURL` hits the fatal
assertion `DCHECK_NE(MATCH_COMPLETE_REPLACEMENT_PENDING, ...)` (modelled
as `none`) instead of the claimed uniform unsupported-scheme cancellation
returning false. -/
theorem c9_counterexample :
    sPend.CheckURL env0 [] ftpUrl = none ∧
    sPend.match_complete_status =
      MatchCompleteStatus.replacementPending := by
  exact ⟨rfl, rfl⟩

/-- C9 (amended): `CheckURL` skips the recently-visited check exactly for
replacement-pending records; the unsupported-scheme and https-disallowed
cancellations are the same for every record that is not
replacement-pending (on a replacement-pending record those branches fire a
fatal assertion instead); and for an http URL reported recently visited, a
non-replacement-pending record is cancelled with `recentlyVisited` and
`CheckURL` returns false, while a replacement-pending record is left
untouched and `CheckURL` returns true. -/
theorem c9_check_url_eligibility :
    (∀ (env : Env) (tr : Tracker) (s : PrerenderContents) (url : GURL),
      s.match_complete_status ≠ MatchCompleteStatus.replacementPending →
      s.prerendering_has_been_cancelled = false →
      s.final_status = FinalStatus.max →
      lookupTracker tr (s.child_id, s.route_id) = none →
      url.SchemeIs kHttpScheme = false →
      url.SchemeIs kHttpsScheme = false →
      ∃ tr1 evs1, s.CheckURL env tr url =
        some (false,
              { s with final_status := FinalStatus.unsupportedScheme,
                       prerendering_has_been_cancelled := true },
              tr1, evs1)) ∧
    (∀ (env : Env) (tr : Tracker) (s : PrerenderContents) (url : GURL),
      s.match_complete_status ≠ MatchCompleteStatus.replacementPending →
      s.prerendering_has_been_cancelled = false →
      s.final_status = FinalStatus.max →
      lookupTracker tr (s.child_id, s.route_id) = none →
      url.SchemeIs kHttpsScheme = true →
      env.https_allowed = false →
      ∃ tr1 evs1, s.CheckURL env tr url =
        some (false,
              { s with final_status := FinalStatus.https,
                       prerendering_has_been_cancelled := true },
              tr1, evs1)) ∧
    (∀ (env : Env) (tr : Tracker) (s : PrerenderContents) (url : GURL),
      url.SchemeIs kHttpScheme = true →
      env.hasRecentlyBeenNavigatedTo s.origin url = true →
      (s.match_complete_status ≠ MatchCompleteStatus.replacementPending →
       s.prerendering_has_been_cancelled = false →
       s.final_status = FinalStatus.max →
       lookupTracker tr (s.child_id, s.route_id) = none →
       ∃ tr1 evs1, s.CheckURL env tr url =
         some (false,
               { s with final_status := FinalStatus.recentlyVisited,
                        prerendering_has_been_cancelled := true },
               tr1, evs1)) ∧
      (s.match_complete_status = MatchCompleteStatus.replacementPending →
       s.CheckURL env tr url = some (true, s, tr, []))) := by
  refine ⟨?_, ?_, ?_⟩
  · intro env tr s url hm hc hf hl h1 h2
    obtain ⟨tr1, evs1, hd⟩ := Destroy_lookup_none env tr s
      FinalStatus.unsupportedScheme (by decide) (by decide) hc hf hl
    unfold PrerenderContents.CheckURL
    dsimp only
    rw [if_pos ⟨h1, h2⟩, if_neg hm, hd]
    exact ⟨tr1, evs1, rfl⟩
  · intro env tr s url hm hc hf hl hhttps hallow
    obtain ⟨tr1, evs1, hd⟩ := Destroy_lookup_none env tr s
      FinalStatus.https (by decide) (by decide) hc hf hl
    unfold PrerenderContents.CheckURL
    dsimp only
    rw [if_neg (by simp [hhttps]), if_pos ⟨hhttps, hallow⟩, if_neg hm, hd]
    exact ⟨tr1, evs1, rfl⟩
  · intro env tr s url hhttp hrv
    have hhttps := SchemeIs_http_not_https url hhttp
    constructor
    · intro hm hc hf hl
      obtain ⟨tr1, evs1, hd⟩ := Destroy_lookup_none env tr s
        FinalStatus.recentlyVisited (by decide) (by decide) hc hf hl
      unfold PrerenderContents.CheckURL
      dsimp only
      rw [if_neg (by simp [hhttp]), if_neg (by simp [hhttps]),
        if_pos ⟨hm, hrv⟩, hd]
      exact ⟨tr1, evs1, rfl⟩
    · intro hm
      unfold PrerenderContents.CheckURL
      dsimp only
      rw [if_neg (by simp [hhttp]), if_neg (by simp [hhttps]),
        if_neg (by rintro ⟨hne, -⟩; exact hne hm)]

/-- Witness for C9 (amended), covering all four cases at concrete inputs:
unsupported scheme on a fresh record, disallowed https, recently-visited
http on a fresh record, and recently-visited http on a replacement-pending
record. -/
theorem c9_witness :
    ((s0.CheckURL env0 [] ftpUrl).map (fun r => (r.1, r.2.1.final_status))) =
      some (false, FinalStatus.unsupportedScheme) ∧
    ((s0.CheckURL envNoHttps [] httpsUrl).map
        (fun r => (r.1, r.2.1.final_status))) =
      some (false, FinalStatus.https) ∧
    ((s0.CheckURL envRV [] url0).map (fun r => (r.1, r.2.1.final_status))) =
      some (false, FinalStatus.recentlyVisited) ∧
    sPend.CheckURL envRV [] url0 = some (true, sPend, [], []) := by
  refine ⟨?_, ?_, ?_, ?_⟩
  · obtain ⟨tr1, evs1, heq⟩ := c9_check_url_eligibility.1 env0 [] s0 ftpUrl
      (by decide) rfl rfl (by decide) (by decide) (by decide)
    rw [heq]
    rfl
  · obtain ⟨tr1, evs1, heq⟩ := c9_check_url_eligibility.2.1 envNoHttps []
      s0 httpsUrl (by decide) rfl rfl (by decide) (by decide) rfl
    rw [heq]
    rfl
  · obtain ⟨tr1, evs1, heq⟩ := (c9_check_url_eligibility.2.2 envRV [] s0
      url0 (by decide) rfl).1 (by decide) rfl rfl (by decide)
    rw [heq]
    rfl
  · exact (c9_check_url_eligibility.2.2 envRV [] sPend url0 (by decide)
      rfl).2 rfl
